import Mathlib

/-!
# Okular search line: a shallow embedding of `ui/searchlineedit.cpp`

The widget `SearchLineEdit` is a record of its member variables together with the
three pieces of inherited Qt state its methods read or write (the text of the line
edit, the Base/Text colours of its palette, and whether the single-shot input delay
timer is active).  Every method is a function from the record to a `Result`: the
record after the call and the ordered list of what the call sent out (calls on
`m_document` and emitted signals).
-/

namespace Okular

/-- A `QString` is a sequence of UTF-16 code units; `length()` counts code units. -/
abbrev QString := List Nat

/-- The enumeration `Qt::CaseSensitivity`. -/
inductive CaseSensitivity where
  | CaseInsensitive
  | CaseSensitive
deriving DecidableEq, Repr

/-- Modelled from the spec: the enumeration `Okular::Document::SearchType` is declared in
`core/document.h`, which is not part of the sources at hand.  The source file names
`AllDocument` (the spec: AllOccurrences), `NextMatch` and `PreviousMatch`; the fourth
value is the spec's FromCurrentPosition. -/
inductive SearchType where
  | AllDocument
  | FromCurrentPosition
  | NextMatch
  | PreviousMatch
deriving DecidableEq, Repr

/-- Modelled from the spec: the enumeration `Okular::Document::SearchStatus` is declared in
`core/document.h`; the source file names `NoMatchFound` only, the spec lists
Found, NoMatch and further values. -/
inductive SearchStatus where
  | MatchFound
  | NoMatchFound
  | SearchCancelled
deriving DecidableEq, Repr

/-- A `QColor`: a default-constructed colour is not valid. -/
structure QColor where
  isValid : Bool
  rgb : Nat
deriving DecidableEq, Repr

/-- The two colour sets the widget paints with: the application palette, or the
negative (warning) colours of the colour scheme. -/
inductive Brush where
  | application
  | negative
deriving DecidableEq, Repr

/-- The two palette roles the widget overwrites. -/
structure QPalette where
  base : Brush
  text : Brush
deriving DecidableEq, Repr

/-- What a method sends out, in order: signals of the widget and calls on `m_document`. -/
inductive Effect where
  | searchStarted
  | searchStopped
  | cancelSearch
  | continueSearch (id : Int) (type : SearchType)
  | resetSearch (id : Int)
  | searchText (id : Int) (text : QString) (fromStart : Bool) (cs : CaseSensitivity)
      (type : SearchType) (moveViewport : Bool) (color : QColor)
deriving DecidableEq, Repr

/-- A full search request (`m_document->searchText`). -/
def Effect.isSearchText : Effect → Bool
  | .searchText _ _ _ _ _ _ _ => true
  | _ => false

/-- A continue request (`m_document->continueSearch`). -/
def Effect.isContinueSearch : Effect → Bool
  | .continueSearch _ _ => true
  | _ => false

/-- A reset call (`m_document->resetSearch`). -/
def Effect.isResetSearch : Effect → Bool
  | .resetSearch _ => true
  | _ => false

/-- A search request of either kind: a full search or a continue. -/
def Effect.isRequest (e : Effect) : Bool :=
  e.isSearchText || e.isContinueSearch

/-- A call on `m_document` (anything that is not a signal of the widget). -/
def Effect.isBackendCall : Effect → Bool
  | .searchStarted => false
  | .searchStopped => false
  | _ => true

/-- The widget: the member variables of `SearchLineEdit` and the inherited state they
interact with. -/
structure SearchLineEdit where
  /-- The value of `text()` of the line edit. -/
  text : QString
  /-- The value of `palette()`, restricted to the Base and Text roles. -/
  palette : QPalette
  /-- Whether `m_inputDelayTimer` (single shot) is running. -/
  timerActive : Bool
  m_minLength : Int
  m_caseSensitivity : CaseSensitivity
  m_searchType : SearchType
  m_id : Int
  m_color : QColor
  m_moveViewport : Bool
  m_changed : Bool
  m_fromStart : Bool
  m_searchRunning : Bool
deriving DecidableEq, Repr

/-- The widget after a call, and what the call sent out. -/
structure Result where
  self : SearchLineEdit
  calls : List Effect
deriving DecidableEq, Repr

namespace SearchLineEdit

/-- The constructor: the member initialiser list, an empty line edit, a stopped timer and
a default-constructed (invalid) `m_color`; the palette the widget starts with is given. -/
def new (pal : QPalette) : SearchLineEdit :=
  { text := [], palette := pal, timerActive := false,
    m_minLength := 0, m_caseSensitivity := .CaseInsensitive,
    m_searchType := .AllDocument, m_id := -1, m_color := ⟨false, 0⟩,
    m_moveViewport := false, m_changed := false, m_fromStart := true,
    m_searchRunning := false }

def setSearchCaseSensitivity (w : SearchLineEdit) (cs : CaseSensitivity) : Result :=
  ⟨{ w with m_caseSensitivity := cs, m_changed := true }, []⟩

def setSearchMinimumLength (w : SearchLineEdit) (length : Int) : Result :=
  ⟨{ w with m_minLength := length, m_changed := true }, []⟩

def setSearchType (w : SearchLineEdit) (type : SearchType) : Result :=
  if type = w.m_searchType then ⟨w, []⟩
  else
    ⟨{ w with m_searchType := type,
              m_changed := decide (type ≠ .NextMatch ∧ type ≠ .PreviousMatch) }, []⟩

def setSearchId (w : SearchLineEdit) (id : Int) : Result :=
  ⟨{ w with m_id := id, m_changed := true }, []⟩

def setSearchColor (w : SearchLineEdit) (color : QColor) : Result :=
  ⟨{ w with m_color := color, m_changed := true }, []⟩

def setSearchMoveViewport (w : SearchLineEdit) (move : Bool) : Result :=
  ⟨{ w with m_moveViewport := move }, []⟩

def setSearchFromStart (w : SearchLineEdit) (fromStart : Bool) : Result :=
  ⟨{ w with m_fromStart := fromStart }, []⟩

def isSearchRunning (w : SearchLineEdit) : Bool :=
  w.m_searchRunning

/-- Stops the timer, starts it again with 700 ms, flags the widget as changed. -/
def restartSearch (w : SearchLineEdit) : Result :=
  ⟨{ w with timerActive := true, m_changed := true }, []⟩

def stopSearch (w : SearchLineEdit) : Result :=
  if w.m_id = -1 ∨ w.m_searchRunning = false then ⟨w, []⟩
  else ⟨{ w with timerActive := false, m_changed := true }, [.cancelSearch]⟩

def startSearch (w : SearchLineEdit) : Result :=
  if w.m_id = -1 ∨ w.m_color.isValid = false then ⟨w, []⟩
  else
    let reset : List Effect :=
      if w.m_changed = true ∧ (w.m_searchType = .NextMatch ∨ w.m_searchType = .PreviousMatch)
      then [.resetSearch w.m_id] else []
    let w1 := { w with m_changed := false }
    let thistext := w1.text
    if (thistext.length : Int) ≥ max w1.m_minLength 1 then
      ⟨{ w1 with m_searchRunning := true },
        reset ++ [.searchStarted,
          .searchText w1.m_id thistext w1.m_fromStart w1.m_caseSensitivity
            w1.m_searchType w1.m_moveViewport w1.m_color]⟩
    else
      ⟨w1, reset ++ [.resetSearch w1.m_id]⟩

def findNext (w : SearchLineEdit) : Result :=
  if w.m_id = -1 ∨ w.m_searchType ≠ .NextMatch then ⟨w, []⟩
  else if w.m_changed = false then
    ⟨{ w with m_searchRunning := true },
      [.searchStarted, .continueSearch w.m_id w.m_searchType]⟩
  else startSearch w

def findPrev (w : SearchLineEdit) : Result :=
  if w.m_id = -1 ∨ w.m_searchType ≠ .PreviousMatch then ⟨w, []⟩
  else if w.m_changed = false then
    ⟨{ w with m_searchRunning := true },
      [.searchStarted, .continueSearch w.m_id w.m_searchType]⟩
  else startSearch w

def prepareLineEditForSearch (w : SearchLineEdit) : SearchLineEdit :=
  let textLength : Int := w.text.length
  if textLength > 0 ∧ textLength < w.m_minLength then
    { w with palette := { base := .negative, text := .negative } }
  else
    { w with palette := { base := .application, text := .application } }

/-- The slot behind `textChanged`; its argument is not used by the body. -/
def slotTextChanged (w : SearchLineEdit) (_text : QString) : Result :=
  restartSearch (prepareLineEditForSearch w)

/-- The slot behind `returnPressed`; its argument is not used by the body. -/
def slotReturnPressed (w : SearchLineEdit) (_text : QString) : Result :=
  findNext (prepareLineEditForSearch { w with timerActive := false })

def searchFinished (w : SearchLineEdit) (id : Int) (endStatus : SearchStatus) : Result :=
  if id ≠ w.m_id then ⟨w, []⟩
  else
    let w1 :=
      if endStatus = .NoMatchFound then
        { w with palette := { base := .negative, text := .negative } }
      else
        { w with palette := { base := .application, text := .application } }
    ⟨{ w1 with m_searchRunning := false }, [.searchStopped]⟩

/-- The line edit delivers `textChanged(text)` once `text()` already is `text`: the event
of the text becoming `text`, followed by the slot. -/
def onTextChanged (w : SearchLineEdit) (text : QString) : Result :=
  slotTextChanged { w with text := text } text

/-- The line edit delivers `returnPressed(text())`. -/
def onSubmit (w : SearchLineEdit) : Result :=
  slotReturnPressed w w.text

/-- The timeout of the single-shot `m_inputDelayTimer`, connected to `startSearch`: it can
fire only while the timer is active, and the timer is stopped by firing. -/
def timeout (w : SearchLineEdit) : Result :=
  if w.timerActive = true then startSearch { w with timerActive := false }
  else ⟨w, []⟩

/-- The method `clearText` calls `clear()` of the line edit, which empties the text and
delivers `textChanged` when the text was not empty already. -/
def clearText (w : SearchLineEdit) : Result :=
  if w.text = [] then ⟨w, []⟩ else onTextChanged w []

end SearchLineEdit

/-- The operations of the widget: its public methods and the events its slots are
connected to. -/
inductive Op where
  | setSearchCaseSensitivity (cs : CaseSensitivity)
  | setSearchMinimumLength (length : Int)
  | setSearchType (type : SearchType)
  | setSearchId (id : Int)
  | setSearchColor (color : QColor)
  | setSearchMoveViewport (move : Bool)
  | setSearchFromStart (fromStart : Bool)
  | clearText
  | restartSearch
  | stopSearch
  | findNext
  | findPrev
  | textChanged (text : QString)
  | returnPressed
  | startSearch
  | timeout
  | searchFinished (id : Int) (endStatus : SearchStatus)
deriving DecidableEq, Repr

/-- One operation on the widget. -/
def Op.run : Op → SearchLineEdit → Result
  | .setSearchCaseSensitivity cs, w => w.setSearchCaseSensitivity cs
  | .setSearchMinimumLength n, w => w.setSearchMinimumLength n
  | .setSearchType t, w => w.setSearchType t
  | .setSearchId id, w => w.setSearchId id
  | .setSearchColor c, w => w.setSearchColor c
  | .setSearchMoveViewport b, w => w.setSearchMoveViewport b
  | .setSearchFromStart b, w => w.setSearchFromStart b
  | .clearText, w => w.clearText
  | .restartSearch, w => w.restartSearch
  | .stopSearch, w => w.stopSearch
  | .findNext, w => w.findNext
  | .findPrev, w => w.findPrev
  | .textChanged t, w => w.onTextChanged t
  | .returnPressed, w => w.onSubmit
  | .startSearch, w => w.startSearch
  | .timeout, w => w.timeout
  | .searchFinished id st, w => w.searchFinished id st

/-- A sequence of operations, one after the other; what they sent out is concatenated. -/
def runOps : List Op → SearchLineEdit → Result
  | [], w => ⟨w, []⟩
  | op :: ops, w =>
    let r := op.run w
    let r2 := runOps ops r.self
    ⟨r2.self, r.calls ++ r2.calls⟩

/-- The signal `searchStarted`. -/
def Effect.isSearchStarted : Effect → Bool
  | .searchStarted => true
  | _ => false

/-- Reads a list of calls and signals from left to right and checks that every
`searchStarted` is directly followed by a search or continue request and that no such
request comes without a `searchStarted` directly before it; `expecting` says that the
item just read was a `searchStarted` whose request is still due. -/
def pairedFrom : Bool → List Effect → Bool
  | expecting, [] => !expecting
  | true, e :: rest => e.isRequest && pairedFrom false rest
  | false, e :: rest =>
    if e.isSearchStarted then pairedFrom true rest
    else !e.isRequest && pairedFrom false rest

/-- The reading of a submission in the specification: the timer is cancelled, the
validity styling is recomputed, and calls, signals and flags are those of `findNext` on
the widget as it was. -/
def SearchLineEdit.onSubmitSpec (w : SearchLineEdit) : Result :=
  ⟨{ w.findNext.self with
      timerActive := false
      palette := w.prepareLineEditForSearch.palette },
    w.findNext.calls⟩

/-- The widget `SearchLineWidget`, as far as its two slots go: whether its single-shot
`m_timer` is active and whether `m_anim` is running.  Modelled from the spec: the class
`AnimatedWidget` is declared in `ui/animatedwidget.h`, which is not part of the sources at
hand; its `start()` makes the busy indicator active and its `stop()` makes it inactive. -/
structure SearchLineWidget where
  timerActive : Bool
  animRunning : Bool
deriving DecidableEq, Repr

namespace SearchLineWidget

/-- The constructor: the timer is created stopped and the animation is not started. -/
def new : SearchLineWidget :=
  { timerActive := false, animRunning := false }

def slotSearchStarted (v : SearchLineWidget) : SearchLineWidget :=
  { v with timerActive := true }

def slotSearchStopped (v : SearchLineWidget) : SearchLineWidget :=
  { v with timerActive := false, animRunning := false }

/-- The timeout of the single-shot `m_timer`, connected to `m_anim->start()`: it can fire
only while the timer is active, and the timer is stopped by firing. -/
def timeout (v : SearchLineWidget) : SearchLineWidget :=
  if v.timerActive = true then { timerActive := false, animRunning := true } else v

end SearchLineWidget

/-- The events the busy indicator reacts to. -/
inductive IndicatorEvent where
  | searchStarted
  | searchStopped
  | timeout
deriving DecidableEq, Repr

/-- One event on the busy indicator. -/
def IndicatorEvent.run : IndicatorEvent → SearchLineWidget → SearchLineWidget
  | .searchStarted, v => v.slotSearchStarted
  | .searchStopped, v => v.slotSearchStopped
  | .timeout, v => v.timeout

/-- A sequence of events on the busy indicator, one after the other. -/
def runEvents : List IndicatorEvent → SearchLineWidget → SearchLineWidget
  | [], v => v
  | e :: es, v => runEvents es (e.run v)

/-- No timeout of the sequence comes while the timer is active: every `searchStarted` is
followed by a `searchStopped` before the timer fires. -/
def stoppedBeforeFiring : List IndicatorEvent → SearchLineWidget → Bool
  | [], _ => true
  | e :: es, v =>
    !(decide (e = .timeout) && v.timerActive) && stoppedBeforeFiring es (e.run v)

/-! ## Concrete widgets used by the examples below -/


/-- The palette a widget starts with in the examples. -/
def appPalette : QPalette := ⟨.application, .application⟩

/-- Some valid colour. -/
def yellow : QColor := ⟨true, 0xffff00⟩

/-- A freshly constructed widget switched to `NextMatch`: no id, no colour, not changed. -/
def freshNextMatch : SearchLineEdit :=
  { SearchLineEdit.new appPalette with m_searchType := .NextMatch }

/-- The widget of the debounce scenario: id 1, a colour, minimum length 3, all-document
search, as left by `setSearchId 1`, `setSearchColor`, `setSearchMinimumLength 3`. -/
def scenarioWidget : SearchLineEdit :=
  { SearchLineEdit.new appPalette with
    m_id := 1, m_color := yellow, m_minLength := 3, m_changed := true }

/-- The widget of the scenario while a search for "abc" is running (minimum length 0). -/
def runningWidget : SearchLineEdit :=
  { SearchLineEdit.new appPalette with
    text := [97, 98, 99], m_id := 1, m_color := yellow, m_searchRunning := true }

/-- The same widget idle, with an empty text. -/
def idleEmptyWidget : SearchLineEdit :=
  { runningWidget with text := [], m_searchRunning := false }

/-- The same widget in `NextMatch` mode, flagged as changed. -/
def changedNextMatchWidget : SearchLineEdit :=
  { runningWidget with m_searchType := .NextMatch, m_changed := true }

/-- The running widget in `NextMatch` mode, not changed: a navigation is in flight. -/
def runningNextMatchWidget : SearchLineEdit :=
  { runningWidget with m_searchType := .NextMatch }

/-- A fresh widget given the id 1 and then switched to `NextMatch`: it has no colour. -/
def noColourNextMatchWidget : SearchLineEdit :=
  { SearchLineEdit.new appPalette with m_id := 1, m_searchType := .NextMatch }

/-- A widget ready to navigate: id 1, a colour, `NextMatch`, not changed, idle. -/
def idleNextMatchWidget : SearchLineEdit :=
  { SearchLineEdit.new appPalette with
    text := [97, 98, 99], m_id := 1, m_color := yellow, m_searchType := .NextMatch }

/-! ## Auxiliary facts about `startSearch` -/

theorem startSearch_eq (w : SearchLineEdit) (hid : w.m_id ≠ -1)
    (hcol : w.m_color.isValid = true) :
    w.startSearch =
      if (w.text.length : Int) ≥ max w.m_minLength 1 then
        ⟨{ w with m_changed := false, m_searchRunning := true },
          (if w.m_changed = true ∧
              (w.m_searchType = .NextMatch ∨ w.m_searchType = .PreviousMatch)
            then [.resetSearch w.m_id] else []) ++
          [.searchStarted,
            .searchText w.m_id w.text w.m_fromStart w.m_caseSensitivity w.m_searchType
              w.m_moveViewport w.m_color]⟩
      else
        ⟨{ w with m_changed := false },
          (if w.m_changed = true ∧
              (w.m_searchType = .NextMatch ∨ w.m_searchType = .PreviousMatch)
            then [.resetSearch w.m_id] else []) ++ [.resetSearch w.m_id]⟩ := by
  unfold SearchLineEdit.startSearch
  rw [if_neg (by simp [hid, hcol])]

theorem startSearch_no_continue (w : SearchLineEdit) :
    w.startSearch.calls.any Effect.isContinueSearch = false := by
  unfold SearchLineEdit.startSearch
  dsimp only
  split_ifs <;> simp [Effect.isContinueSearch]

theorem startSearch_guard (w : SearchLineEdit) (h : w.m_id = -1 ∨ w.m_color.isValid = false) :
    w.startSearch = ⟨w, []⟩ := by
  unfold SearchLineEdit.startSearch
  rw [if_pos h]

theorem onTextChanged_twice (w : SearchLineEdit) (a b : QString) :
    (w.onTextChanged a).self.onTextChanged b = w.onTextChanged b := by
  unfold SearchLineEdit.onTextChanged SearchLineEdit.slotTextChanged
    SearchLineEdit.restartSearch SearchLineEdit.prepareLineEditForSearch
  dsimp only
  split_ifs <;> rfl

theorem onTextChanged_calls (w : SearchLineEdit) (t : QString) :
    (w.onTextChanged t).calls = [] := rfl

theorem runOps_cons (op : Op) (ops : List Op) (w : SearchLineEdit) :
    runOps (op :: ops) w =
      ⟨(runOps ops (op.run w).self).self,
        (op.run w).calls ++ (runOps ops (op.run w).self).calls⟩ := rfl

theorem onTextChanged_self (w : SearchLineEdit) (t : QString) :
    (w.onTextChanged t).self =
      { w with
        text := t
        palette :=
          if (t.length : Int) > 0 ∧ (t.length : Int) < w.m_minLength then
            { base := .negative, text := .negative }
          else { base := .application, text := .application }
        timerActive := true
        m_changed := true } := by
  unfold SearchLineEdit.onTextChanged SearchLineEdit.slotTextChanged
    SearchLineEdit.restartSearch SearchLineEdit.prepareLineEditForSearch
  dsimp only
  split_ifs <;> rfl

theorem runOps_textChanged (ts : List QString) (t : QString) (w : SearchLineEdit) :
    runOps ((ts ++ [t]).map Op.textChanged) w = ⟨(w.onTextChanged t).self, []⟩ := by
  induction ts generalizing w with
  | nil => simp [runOps, Op.run, onTextChanged_calls]
  | cons a rest ih =>
    rw [List.cons_append, List.map_cons, runOps_cons, ih]
    simp only [Op.run]
    rw [onTextChanged_twice, onTextChanged_calls]
    rfl

theorem timeout_after_onTextChanged (w : SearchLineEdit) (t : QString) :
    (w.onTextChanged t).self.timeout =
      ({ (w.onTextChanged t).self with timerActive := false }).startSearch := by
  unfold SearchLineEdit.timeout
  rw [if_pos (by rw [onTextChanged_self])]

theorem prepareLineEditForSearch_eq (w : SearchLineEdit) :
    w.prepareLineEditForSearch =
      { w with
        palette :=
          if (w.text.length : Int) > 0 ∧ (w.text.length : Int) < w.m_minLength then
            { base := .negative, text := .negative }
          else { base := .application, text := .application } } := by
  unfold SearchLineEdit.prepareLineEditForSearch
  dsimp only
  split_ifs <;> rfl

/-- What every run of `startSearch` satisfies: a search request needs the id and the
colour and leaves the widget not changed; the changed flag is cleared only past the
guard, together with a search request or a reset. -/
theorem startSearch_facts (w : SearchLineEdit) :
    (w.startSearch.calls.any Effect.isSearchText = true →
        w.m_id ≠ -1 ∧ w.m_color.isValid = true ∧ w.startSearch.self.m_changed = false)
    ∧ (w.m_changed = true → w.startSearch.self.m_changed = false →
        (w.m_id ≠ -1 ∧ w.m_color.isValid = true)
        ∧ (w.startSearch.calls.any Effect.isSearchText = true
            ↔ (w.text.length : Int) ≥ max w.m_minLength 1)
        ∧ (¬ (w.text.length : Int) ≥ max w.m_minLength 1 →
            Effect.resetSearch w.m_id ∈ w.startSearch.calls)) := by
  by_cases hg : w.m_id = -1 ∨ w.m_color.isValid = false
  · rw [startSearch_guard w hg]
    refine ⟨by simp, fun h1 h2 => ?_⟩
    rw [h1] at h2
    exact absurd h2 (by decide)
  · have hid : w.m_id ≠ -1 := fun h => hg (Or.inl h)
    have hcol : w.m_color.isValid = true := by
      cases hv : w.m_color.isValid
      · exact absurd (Or.inr hv) hg
      · rfl
    rw [startSearch_eq w hid hcol]
    by_cases hlen : (w.text.length : Int) ≥ max w.m_minLength 1
    · rw [if_pos hlen]
      refine ⟨fun _ => ⟨hid, hcol, rfl⟩, fun _ _ => ⟨⟨hid, hcol⟩, ?_, fun h => absurd hlen h⟩⟩
      simp [hlen, Effect.isSearchText]
    · rw [if_neg hlen]
      refine ⟨fun _ => ⟨hid, hcol, rfl⟩, fun _ _ => ⟨⟨hid, hcol⟩, ?_, fun _ => by simp⟩⟩
      by_cases hnav : w.m_changed = true ∧
          (w.m_searchType = .NextMatch ∨ w.m_searchType = .PreviousMatch)
      · simp [hlen, hnav, Effect.isSearchText]
      · simp [hlen, hnav, Effect.isSearchText]

/-- What every operation of the shape of `findNext` and `findPrev` (direction `d`)
satisfies. -/
theorem navigation_facts (w : SearchLineEdit) (d : SearchType) (r : Result)
    (hr : r = if w.m_id = -1 ∨ w.m_searchType ≠ d then ⟨w, []⟩
      else if w.m_changed = false then
        ⟨{ w with m_searchRunning := true },
          [.searchStarted, .continueSearch w.m_id w.m_searchType]⟩
      else w.startSearch) :
    (r.calls.any Effect.isSearchText = true →
        w.m_id ≠ -1 ∧ w.m_color.isValid = true ∧ r.self.m_changed = false)
    ∧ (w.m_changed = true → r.self.m_changed = false →
        (w.m_id ≠ -1 ∧ w.m_color.isValid = true)
        ∧ (r.calls.any Effect.isSearchText = true
            ↔ (w.text.length : Int) ≥ max w.m_minLength 1)
        ∧ (¬ (w.text.length : Int) ≥ max w.m_minLength 1 →
            Effect.resetSearch w.m_id ∈ r.calls))
    ∧ (r.calls.any Effect.isContinueSearch = true → w.m_id ≠ -1) := by
  subst hr
  by_cases h1 : w.m_id = -1 ∨ w.m_searchType ≠ d
  · rw [if_pos h1]
    refine ⟨by simp, fun h2 h3 => ?_, by simp⟩
    rw [h2] at h3
    exact absurd h3 (by decide)
  · rw [if_neg h1]
    have hid : w.m_id ≠ -1 := fun h => h1 (Or.inl h)
    by_cases h2 : w.m_changed = false
    · rw [if_pos h2]
      refine ⟨by simp [Effect.isSearchText], fun h3 _ => ?_, fun _ => hid⟩
      rw [h2] at h3
      exact absurd h3 (by decide)
    · rw [if_neg h2]
      exact ⟨(startSearch_facts w).1, (startSearch_facts w).2, fun _ => hid⟩

/-- What every operation satisfies: a search request needs the id and the colour and
leaves the widget not changed; a continue request needs the id; the changed flag goes
from set to not set only where `setSearchType` with a new navigation type overwrites it
or in a run of `startSearch` past its guard. -/
theorem op_facts (w : SearchLineEdit) (op : Op) :
    ((op.run w).calls.any Effect.isSearchText = true →
        w.m_id ≠ -1 ∧ w.m_color.isValid = true ∧ (op.run w).self.m_changed = false)
    ∧ (w.m_changed = true → (op.run w).self.m_changed = false →
        (∃ type, op = .setSearchType type ∧ type ≠ w.m_searchType
            ∧ (type = .NextMatch ∨ type = .PreviousMatch))
        ∨ ((w.m_id ≠ -1 ∧ w.m_color.isValid = true)
          ∧ ((op.run w).calls.any Effect.isSearchText = true
              ↔ (w.text.length : Int) ≥ max w.m_minLength 1)
          ∧ (¬ (w.text.length : Int) ≥ max w.m_minLength 1 →
              Effect.resetSearch w.m_id ∈ (op.run w).calls)))
    ∧ ((op.run w).calls.any Effect.isContinueSearch = true → w.m_id ≠ -1) := by
  cases op with
  | setSearchCaseSensitivity cs =>
    simp [Op.run, SearchLineEdit.setSearchCaseSensitivity]
  | setSearchMinimumLength n =>
    simp [Op.run, SearchLineEdit.setSearchMinimumLength]
  | setSearchType t =>
    simp only [Op.run]
    unfold SearchLineEdit.setSearchType
    by_cases ht : t = w.m_searchType
    · rw [if_pos ht]
      refine ⟨by simp, fun h1 h2 => ?_, by simp⟩
      rw [h1] at h2
      exact absurd h2 (by decide)
    · rw [if_neg ht]
      refine ⟨by simp, fun _ h2 => Or.inl ⟨t, rfl, ht, ?_⟩, by simp⟩
      cases t <;> simp at h2 ⊢
  | setSearchId id =>
    simp [Op.run, SearchLineEdit.setSearchId]
  | setSearchColor c =>
    simp [Op.run, SearchLineEdit.setSearchColor]
  | setSearchMoveViewport b =>
    simp only [Op.run, SearchLineEdit.setSearchMoveViewport]
    refine ⟨by simp, fun h1 h2 => ?_, by simp⟩
    rw [h1] at h2
    exact absurd h2 (by decide)
  | setSearchFromStart b =>
    simp only [Op.run, SearchLineEdit.setSearchFromStart]
    refine ⟨by simp, fun h1 h2 => ?_, by simp⟩
    rw [h1] at h2
    exact absurd h2 (by decide)
  | clearText =>
    simp only [Op.run]
    unfold SearchLineEdit.clearText
    by_cases ht : w.text = []
    · rw [if_pos ht]
      refine ⟨by simp, fun h1 h2 => ?_, by simp⟩
      rw [h1] at h2
      exact absurd h2 (by decide)
    · rw [if_neg ht, onTextChanged_calls, onTextChanged_self]
      simp
  | restartSearch =>
    simp [Op.run, SearchLineEdit.restartSearch]
  | stopSearch =>
    simp only [Op.run]
    unfold SearchLineEdit.stopSearch
    split_ifs
    · refine ⟨by simp, fun h1 h2 => ?_, by simp⟩
      rw [h1] at h2
      exact absurd h2 (by decide)
    · simp [Effect.isSearchText, Effect.isContinueSearch]
  | findNext =>
    have h := navigation_facts w .NextMatch w.findNext rfl
    exact ⟨h.1, fun h1 h2 => Or.inr (h.2.1 h1 h2), h.2.2⟩
  | findPrev =>
    have h := navigation_facts w .PreviousMatch w.findPrev rfl
    exact ⟨h.1, fun h1 h2 => Or.inr (h.2.1 h1 h2), h.2.2⟩
  | textChanged t =>
    simp only [Op.run]
    rw [onTextChanged_calls, onTextChanged_self]
    simp
  | returnPressed =>
    simp only [Op.run]
    unfold SearchLineEdit.onSubmit SearchLineEdit.slotReturnPressed
    rw [prepareLineEditForSearch_eq]
    have h := navigation_facts
      { w with
        timerActive := false
        palette :=
          if (w.text.length : Int) > 0 ∧ (w.text.length : Int) < w.m_minLength then
            { base := .negative, text := .negative }
          else { base := .application, text := .application } } .NextMatch _ rfl
    exact ⟨h.1, fun h1 h2 => Or.inr (h.2.1 h1 h2), h.2.2⟩
  | startSearch =>
    have h := startSearch_facts w
    exact ⟨h.1, fun h1 h2 => Or.inr (h.2 h1 h2), by simp [Op.run, startSearch_no_continue]⟩
  | timeout =>
    simp only [Op.run]
    unfold SearchLineEdit.timeout
    split_ifs
    · have h := startSearch_facts { w with timerActive := false }
      exact ⟨h.1, fun h1 h2 => Or.inr (h.2 h1 h2), by simp [startSearch_no_continue]⟩
    · refine ⟨by simp, fun h1 h2 => ?_, by simp⟩
      rw [h1] at h2
      exact absurd h2 (by decide)
  | searchFinished id st =>
    simp only [Op.run]
    unfold SearchLineEdit.searchFinished
    split_ifs
    · refine ⟨by simp, fun h1 h2 => ?_, by simp⟩
      rw [h1] at h2
      exact absurd h2 (by decide)
    · refine ⟨by simp [Effect.isSearchText], fun h1 h2 => ?_,
        by simp [Effect.isContinueSearch]⟩
      rw [h1] at h2
      exact absurd h2 (by decide)
    · refine ⟨by simp [Effect.isSearchText], fun h1 h2 => ?_,
        by simp [Effect.isContinueSearch]⟩
      rw [h1] at h2
      exact absurd h2 (by decide)

/-! ## Navigation: `findNext` and `findPrev` -/

/-- C1 (as stated, refuted): a freshly constructed widget switched to `NextMatch` is not
changed and in `NextMatch` mode, yet `findNext` on it sends nothing at all, because its
id is still -1. -/
theorem findNext_continue_iff_counterexample :
    (runOps [.setSearchType .NextMatch] (SearchLineEdit.new appPalette)).self = freshNextMatch
    ∧ ¬ (freshNextMatch.findNext.calls.any Effect.isContinueSearch = true ↔
          (freshNextMatch.m_changed = false ∧ freshNextMatch.m_searchType = .NextMatch)) := by
  decide

/-- C1 (amended): `findNext` (resp. `findPrev`) sends a `continueSearch` exactly when the id
is not -1, the widget is not changed and the search type is `NextMatch` (resp.
`PreviousMatch`); it then sends `searchStarted` and that one `continueSearch` only and sets
the running flag.  In every other state it changes nothing and sends nothing, or it is
`startSearch`. -/
theorem findNext_findPrev_continue_iff (w : SearchLineEdit) :
    ((w.findNext.calls.any Effect.isContinueSearch = true ↔
        (w.m_id ≠ -1 ∧ w.m_changed = false ∧ w.m_searchType = .NextMatch))
      ∧ (w.findNext.calls.any Effect.isContinueSearch = true →
          w.findNext = ⟨{ w with m_searchRunning := true },
            [.searchStarted, .continueSearch w.m_id .NextMatch]⟩)
      ∧ (w.findNext.calls.any Effect.isContinueSearch = false →
          w.findNext = ⟨w, []⟩ ∨ w.findNext = w.startSearch))
    ∧ ((w.findPrev.calls.any Effect.isContinueSearch = true ↔
        (w.m_id ≠ -1 ∧ w.m_changed = false ∧ w.m_searchType = .PreviousMatch))
      ∧ (w.findPrev.calls.any Effect.isContinueSearch = true →
          w.findPrev = ⟨{ w with m_searchRunning := true },
            [.searchStarted, .continueSearch w.m_id .PreviousMatch]⟩)
      ∧ (w.findPrev.calls.any Effect.isContinueSearch = false →
          w.findPrev = ⟨w, []⟩ ∨ w.findPrev = w.startSearch)) := by
  have hs := startSearch_no_continue w
  constructor
  · unfold SearchLineEdit.findNext
    by_cases h1 : w.m_id = -1 ∨ w.m_searchType ≠ .NextMatch
    · rw [if_pos h1]
      rcases h1 with h1 | h1 <;> simp [h1]
    · rw [if_neg h1]
      push_neg at h1
      by_cases h2 : w.m_changed = false
      · rw [if_pos h2]
        simp [h1.1, h1.2, h2, Effect.isContinueSearch]
      · rw [if_neg h2]
        simp [hs, h2]
  · unfold SearchLineEdit.findPrev
    by_cases h1 : w.m_id = -1 ∨ w.m_searchType ≠ .PreviousMatch
    · rw [if_pos h1]
      rcases h1 with h1 | h1 <;> simp [h1]
    · rw [if_neg h1]
      push_neg at h1
      by_cases h2 : w.m_changed = false
      · rw [if_pos h2]
        simp [h1.1, h1.2, h2, Effect.isContinueSearch]
      · rw [if_neg h2]
        simp [hs, h2]

/-! ## Completions: `searchFinished` -/

/-- C2: a completion whose id is not the id of the widget changes no field of the widget
(running flag, changed flag and palette included) and emits nothing, so no
`searchStopped`. -/
theorem searchFinished_other_id (w : SearchLineEdit) (id : Int) (endStatus : SearchStatus)
    (h : id ≠ w.m_id) :
    (w.searchFinished id endStatus).self = w ∧ (w.searchFinished id endStatus).calls = [] := by
  unfold SearchLineEdit.searchFinished
  rw [if_pos h]
  exact ⟨rfl, rfl⟩

/-- C2 at a concrete input: a running widget with id 1 receives the completion of
search 2. -/
theorem searchFinished_other_id_witness :
    (({ freshNextMatch with m_id := 1, m_searchRunning := true }).searchFinished 2
        .NoMatchFound).self = { freshNextMatch with m_id := 1, m_searchRunning := true }
    ∧ (({ freshNextMatch with m_id := 1, m_searchRunning := true }).searchFinished 2
        .NoMatchFound).calls = [] :=
  searchFinished_other_id { freshNextMatch with m_id := 1, m_searchRunning := true } 2
    .NoMatchFound (by decide)

/-! ## Debouncing: `textChanged` and the input delay timer -/

/-- C3 (as stated, refuted): on the scenario widget (id 1, a colour, minimum length 3,
all-document search) the text changes to "a" and then to "ab"; the changes send nothing,
and the timeout that follows sends a single `resetSearch 1` and no search request. -/
theorem textChanged_debounce_counterexample :
    (runOps [.setSearchId 1, .setSearchColor yellow, .setSearchMinimumLength 3]
        (SearchLineEdit.new appPalette)).self = scenarioWidget
    ∧ (runOps [.textChanged [97], .textChanged [97, 98]] scenarioWidget).calls = []
    ∧ (runOps [.textChanged [97], .textChanged [97, 98]] scenarioWidget).self.timeout.calls
        = [.resetSearch 1]
    ∧ ¬ ((runOps [.textChanged [97], .textChanged [97, 98]]
          scenarioWidget).self.timeout.calls.countP Effect.isSearchText = 1) := by
  decide

/-- C3 (amended): with an id other than -1 and a valid colour, a non-empty run of text
changes sends nothing and leaves the timer active; the timeout that follows sends a reset
first when the search type is `NextMatch` or `PreviousMatch`, and then, when the last text
has at least `max m_minLength 1` code units, `searchStarted` and exactly one search
request, which carries the last text, and otherwise a `resetSearch` and no search
request. -/
theorem textChanged_debounce (w : SearchLineEdit) (ts : List QString) (hts : ts ≠ [])
    (hid : w.m_id ≠ -1) (hcol : w.m_color.isValid = true) :
    (runOps (ts.map Op.textChanged) w).calls = []
    ∧ (runOps (ts.map Op.textChanged) w).self.timerActive = true
    ∧ (runOps (ts.map Op.textChanged) w).self.timeout.calls =
        (if w.m_searchType = .NextMatch ∨ w.m_searchType = .PreviousMatch
          then [.resetSearch w.m_id] else []) ++
        (if ((ts.getLast hts).length : Int) ≥ max w.m_minLength 1 then
          [.searchStarted,
            .searchText w.m_id (ts.getLast hts) w.m_fromStart w.m_caseSensitivity
              w.m_searchType w.m_moveViewport w.m_color]
        else [.resetSearch w.m_id])
    ∧ (runOps (ts.map Op.textChanged) w).self.timeout.calls.filter Effect.isRequest =
        (if ((ts.getLast hts).length : Int) ≥ max w.m_minLength 1 then
          [.searchText w.m_id (ts.getLast hts) w.m_fromStart w.m_caseSensitivity
              w.m_searchType w.m_moveViewport w.m_color]
        else []) := by
  obtain ⟨init, t, rfl⟩ : ∃ init t, ts = init ++ [t] :=
    ⟨ts.dropLast, ts.getLast hts, (List.dropLast_append_getLast hts).symm⟩
  have hlast : (init ++ [t]).getLast hts = t := by simp
  rw [hlast, runOps_textChanged]
  dsimp only
  rw [timeout_after_onTextChanged, onTextChanged_self]
  have key := startSearch_eq
    { w with
      text := t
      palette :=
        if (t.length : Int) > 0 ∧ (t.length : Int) < w.m_minLength then
          { base := .negative, text := .negative }
        else { base := .application, text := .application }
      timerActive := false
      m_changed := true } hid hcol
  dsimp only at key
  refine ⟨rfl, rfl, ?_, ?_⟩
  · rw [key]
    by_cases hlen : (t.length : Int) ≥ max w.m_minLength 1
    · rw [if_pos hlen, if_pos hlen]
      simp
    · rw [if_neg hlen, if_neg hlen]
      simp
  · rw [key]
    by_cases hlen : (t.length : Int) ≥ max w.m_minLength 1
    · rw [if_pos hlen, if_pos hlen]
      by_cases hnav : w.m_searchType = .NextMatch ∨ w.m_searchType = .PreviousMatch
      · simp [hnav, List.filter, Effect.isRequest, Effect.isSearchText,
          Effect.isContinueSearch]
      · simp [hnav, List.filter, Effect.isRequest, Effect.isSearchText,
          Effect.isContinueSearch]
    · rw [if_neg hlen, if_neg hlen]
      by_cases hnav : w.m_searchType = .NextMatch ∨ w.m_searchType = .PreviousMatch
      · simp [hnav, List.filter, Effect.isRequest, Effect.isSearchText,
          Effect.isContinueSearch]
      · simp [hnav, List.filter, Effect.isRequest, Effect.isSearchText,
          Effect.isContinueSearch]

/-- C3 at the scenario of the specification: id 1, a colour, minimum length 3,
all-document search, the text changes "a", "ab", "abc"; the timeout sends exactly one
search request, for "abc". -/
theorem textChanged_debounce_witness :
    (runOps ([[97], [97, 98], [97, 98, 99]].map Op.textChanged) scenarioWidget).calls = []
    ∧ (runOps ([[97], [97, 98], [97, 98, 99]].map Op.textChanged)
        scenarioWidget).self.timeout.calls.filter Effect.isRequest =
        [.searchText 1 [97, 98, 99] true .CaseInsensitive .AllDocument false yellow] := by
  have h := textChanged_debounce scenarioWidget [[97], [97, 98], [97, 98, 99]]
    (by decide) (by decide) (by decide)
  exact ⟨h.1, h.2.2.2⟩

/-! ## The full search: `startSearch` -/

/-- C4: with an id other than -1 and a valid colour, `startSearch` decides on the length
of the text alone.  With at least `max m_minLength 1` code units it emits `searchStarted`,
sets the running flag and sends exactly one search request, the `searchText` call with
the current id, text, from-start flag, case sensitivity, search type, viewport flag and
colour.  Otherwise it sends `resetSearch` with the id, emits no `searchStarted`, sends no
search request and leaves the running flag as it was. -/
theorem startSearch_decides_on_length (w : SearchLineEdit) (hid : w.m_id ≠ -1)
    (hcol : w.m_color.isValid = true) :
    ((w.text.length : Int) ≥ max w.m_minLength 1 →
        Effect.searchStarted ∈ w.startSearch.calls
        ∧ w.startSearch.self.m_searchRunning = true
        ∧ w.startSearch.calls.filter Effect.isRequest =
            [.searchText w.m_id w.text w.m_fromStart w.m_caseSensitivity w.m_searchType
              w.m_moveViewport w.m_color])
    ∧ (¬ (w.text.length : Int) ≥ max w.m_minLength 1 →
        Effect.resetSearch w.m_id ∈ w.startSearch.calls
        ∧ Effect.searchStarted ∉ w.startSearch.calls
        ∧ w.startSearch.calls.filter Effect.isRequest = []
        ∧ w.startSearch.self.m_searchRunning = w.m_searchRunning) := by
  rw [startSearch_eq w hid hcol]
  constructor
  · intro hlen
    rw [if_pos hlen]
    by_cases hnav : w.m_changed = true ∧
        (w.m_searchType = .NextMatch ∨ w.m_searchType = .PreviousMatch)
    · simp [hnav, List.filter, Effect.isRequest, Effect.isSearchText,
        Effect.isContinueSearch]
    · simp [hnav, List.filter, Effect.isRequest, Effect.isSearchText,
        Effect.isContinueSearch]
  · intro hlen
    rw [if_neg hlen]
    by_cases hnav : w.m_changed = true ∧
        (w.m_searchType = .NextMatch ∨ w.m_searchType = .PreviousMatch)
    · simp [hnav, List.filter, Effect.isRequest, Effect.isSearchText,
        Effect.isContinueSearch]
    · simp [hnav, List.filter, Effect.isRequest, Effect.isSearchText,
        Effect.isContinueSearch]

/-- C4 at two concrete inputs: the running widget holding "abc" sends one search request
for it; the same widget, not running and with an empty text, sends a reset and stays not
running. -/
theorem startSearch_decides_on_length_witness :
    runningWidget.startSearch.calls.filter Effect.isRequest =
        [.searchText 1 [97, 98, 99] true .CaseInsensitive .AllDocument false yellow]
    ∧ Effect.resetSearch 1 ∈
        idleEmptyWidget.startSearch.calls
    ∧ idleEmptyWidget.startSearch.self.m_searchRunning
        = false :=
  ⟨((startSearch_decides_on_length runningWidget (by decide) (by decide)).1
      (by decide)).2.2,
    ((startSearch_decides_on_length idleEmptyWidget
      (by decide) (by decide)).2 (by decide)).1,
    ((startSearch_decides_on_length idleEmptyWidget
      (by decide) (by decide)).2 (by decide)).2.2.2⟩

/-- C5: with an id other than -1 and a valid colour, `startSearch` sends `resetSearch`
with the id ahead of its search-or-reset decision exactly when the widget is changed and
the search type is `NextMatch` or `PreviousMatch`; in either case the changed flag is
false afterwards. -/
theorem startSearch_reset_first_iff (w : SearchLineEdit) (hid : w.m_id ≠ -1)
    (hcol : w.m_color.isValid = true) :
    ((w.m_changed = true ∧ (w.m_searchType = .NextMatch ∨ w.m_searchType = .PreviousMatch)) →
        w.startSearch.calls = .resetSearch w.m_id ::
          (if (w.text.length : Int) ≥ max w.m_minLength 1 then
            [.searchStarted,
              .searchText w.m_id w.text w.m_fromStart w.m_caseSensitivity w.m_searchType
                w.m_moveViewport w.m_color]
          else [.resetSearch w.m_id]))
    ∧ (¬ (w.m_changed = true ∧
          (w.m_searchType = .NextMatch ∨ w.m_searchType = .PreviousMatch)) →
        w.startSearch.calls =
          (if (w.text.length : Int) ≥ max w.m_minLength 1 then
            [.searchStarted,
              .searchText w.m_id w.text w.m_fromStart w.m_caseSensitivity w.m_searchType
                w.m_moveViewport w.m_color]
          else [.resetSearch w.m_id]))
    ∧ w.startSearch.self.m_changed = false := by
  rw [startSearch_eq w hid hcol]
  refine ⟨fun hnav => ?_, fun hnav => ?_, ?_⟩
  · rw [if_pos hnav]
    split_ifs <;> rfl
  · rw [if_neg hnav]
    split_ifs <;> rfl
  · split_ifs <;> rfl

/-- C5 at a concrete input: a changed widget in `NextMatch` mode holding "abc" sends the
reset, then the search; the changed flag is cleared. -/
theorem startSearch_reset_first_iff_witness :
    changedNextMatchWidget.startSearch.calls =
        [.resetSearch 1, .searchStarted,
          .searchText 1 [97, 98, 99] true .CaseInsensitive .NextMatch false yellow]
    ∧ changedNextMatchWidget.startSearch.self.m_changed = false :=
  ⟨(startSearch_reset_first_iff changedNextMatchWidget
      (by decide) (by decide)).1 (by decide),
    (startSearch_reset_first_iff changedNextMatchWidget
      (by decide) (by decide)).2.2⟩

/-! ## Stopping: `stopSearch` followed by `startSearch` -/

/-- C6 (as stated, refuted): the running all-document widget holding "abc" is stopped
(`cancelSearch` is sent); the `startSearch` that follows sends `searchStarted` and the
search request, and no `resetSearch` at all. -/
theorem startSearch_after_stopSearch_counterexample :
    runningWidget.stopSearch.calls = [.cancelSearch]
    ∧ runningWidget.stopSearch.self.startSearch.calls =
        [.searchStarted,
          .searchText 1 [97, 98, 99] true .CaseInsensitive .AllDocument false yellow]
    ∧ ¬ (runningWidget.stopSearch.self.startSearch.calls.any Effect.isResetSearch = true) := by
  decide

/-- C6 (amended): where `stopSearch` takes effect (id other than -1, running, valid
colour) it leaves the widget changed, and the `startSearch` that follows sends no
`continueSearch`; its first call is `resetSearch` with the id when the search type is
`NextMatch` or `PreviousMatch` or the text has fewer than `max m_minLength 1` code units,
and in the other search types with a long enough text it sends `searchStarted` and the
search request without any `resetSearch`. -/
theorem startSearch_after_stopSearch (w : SearchLineEdit) (hid : w.m_id ≠ -1)
    (hrun : w.m_searchRunning = true) (hcol : w.m_color.isValid = true) :
    w.stopSearch.self.m_changed = true
    ∧ w.stopSearch.self.startSearch.calls.any Effect.isContinueSearch = false
    ∧ (((w.m_searchType = .NextMatch ∨ w.m_searchType = .PreviousMatch)
          ∨ ¬ (w.text.length : Int) ≥ max w.m_minLength 1) →
        w.stopSearch.self.startSearch.calls.head? = some (.resetSearch w.m_id))
    ∧ ((¬ (w.m_searchType = .NextMatch ∨ w.m_searchType = .PreviousMatch)
          ∧ (w.text.length : Int) ≥ max w.m_minLength 1) →
        w.stopSearch.self.startSearch.calls =
          [.searchStarted,
            .searchText w.m_id w.text w.m_fromStart w.m_caseSensitivity w.m_searchType
              w.m_moveViewport w.m_color]) := by
  have hstop : w.stopSearch = ⟨{ w with timerActive := false, m_changed := true },
      [.cancelSearch]⟩ := by
    unfold SearchLineEdit.stopSearch
    rw [if_neg (by simp [hid, hrun])]
  have key := startSearch_eq { w with timerActive := false, m_changed := true } hid hcol
  dsimp only at key
  rw [hstop]
  refine ⟨rfl, startSearch_no_continue _, ?_, ?_⟩
  · dsimp only
    rw [key]
    rintro (hnav | hlen)
    · have hc : true = true ∧
          (w.m_searchType = .NextMatch ∨ w.m_searchType = .PreviousMatch) := ⟨rfl, hnav⟩
      by_cases hlen : (w.text.length : Int) ≥ max w.m_minLength 1
      · rw [if_pos hlen, if_pos hc]
        rfl
      · rw [if_neg hlen, if_pos hc]
        rfl
    · rw [if_neg hlen]
      by_cases hnav : w.m_searchType = .NextMatch ∨ w.m_searchType = .PreviousMatch
      · simp [hnav]
      · simp [hnav]
  · dsimp only
    rw [key]
    rintro ⟨hnav, hlen⟩
    rw [if_pos hlen]
    simp [hnav]

/-- C6 at a concrete input: the running widget in `NextMatch` mode is stopped; the
`startSearch` that follows sends the reset first. -/
theorem startSearch_after_stopSearch_witness :
    changedNextMatchWidget.stopSearch.self.m_changed = true
    ∧ changedNextMatchWidget.stopSearch.self.startSearch.calls.head?
        = some (.resetSearch 1) :=
  ⟨(startSearch_after_stopSearch changedNextMatchWidget (by decide) (by decide)
      (by decide)).1,
    (startSearch_after_stopSearch changedNextMatchWidget (by decide) (by decide)
      (by decide)).2.2.1 (by decide)⟩

/-! ## The option setters -/

/-- C7 (as stated, refuted): the constructed widget searches the whole document and is not
changed; `setSearchType` with the different value `NextMatch` does not flag it as changed,
so it is not changed afterwards. -/
theorem setSearchType_changed_counterexample :
    SearchType.NextMatch ≠ (SearchLineEdit.new appPalette).m_searchType
    ∧ (SearchLineEdit.new appPalette).m_changed = false
    ∧ ¬ (((SearchLineEdit.new appPalette).setSearchType .NextMatch).self.m_changed = true) := by
  decide

/-- C7 (amended): `setSearchCaseSensitivity`, `setSearchMinimumLength`, `setSearchId` and
`setSearchColor` leave the widget changed for every argument, the current value included.
`setSearchType` with a value other than the current one leaves the widget changed when
the new value is neither `NextMatch` nor `PreviousMatch`; when the new value is
`NextMatch` or `PreviousMatch` it does not flag the widget as changed: a widget that was
not changed is not changed afterwards.  `setSearchType` with the current value changes
nothing. -/
theorem setters_changed (w : SearchLineEdit) (cs : CaseSensitivity) (length id : Int)
    (color : QColor) (type : SearchType) :
    (w.setSearchCaseSensitivity cs).self.m_changed = true
    ∧ (w.setSearchMinimumLength length).self.m_changed = true
    ∧ (w.setSearchId id).self.m_changed = true
    ∧ (w.setSearchColor color).self.m_changed = true
    ∧ (type ≠ w.m_searchType → type ≠ .NextMatch → type ≠ .PreviousMatch →
        (w.setSearchType type).self.m_changed = true)
    ∧ (type ≠ w.m_searchType → (type = .NextMatch ∨ type = .PreviousMatch) →
        w.m_changed = false → (w.setSearchType type).self.m_changed = false)
    ∧ w.setSearchType w.m_searchType = ⟨w, []⟩ := by
  refine ⟨rfl, rfl, rfl, rfl, fun hne h1 h2 => ?_, fun hne hnav _ => ?_, ?_⟩
  · unfold SearchLineEdit.setSearchType
    rw [if_neg hne]
    simp [h1, h2]
  · unfold SearchLineEdit.setSearchType
    rw [if_neg hne]
    rcases hnav with h | h <;> simp [h]
  · unfold SearchLineEdit.setSearchType
    rw [if_pos rfl]

/-- C7 at concrete inputs: the scenario widget switched to `FromCurrentPosition` is
changed; the idle all-document widget switched to `PreviousMatch` is not flagged. -/
theorem setters_changed_witness :
    (scenarioWidget.setSearchType .FromCurrentPosition).self.m_changed = true
    ∧ ((SearchLineEdit.new appPalette).setSearchType .PreviousMatch).self.m_changed = false :=
  ⟨(setters_changed scenarioWidget .CaseSensitive 0 0 yellow .FromCurrentPosition).2.2.2.2.1
      (by decide) (by decide) (by decide),
    (setters_changed (SearchLineEdit.new appPalette) .CaseSensitive 0 0 yellow
      .PreviousMatch).2.2.2.2.2.1 (by decide) (by decide) (by decide)⟩

/-! ## The changed flag across operations -/

/-- C8 (as stated, refuted): two runs of `startSearch`.  On the changed scenario widget
with its empty text it clears the flag and sends a reset only, no search request; on the
running widget, which is not changed, it sends a search request although the flag does not
go from true to false. -/
theorem changed_cleared_iff_search_counterexample :
    ¬ ((scenarioWidget.m_changed = true
          ∧ ((Op.startSearch).run scenarioWidget).self.m_changed = false)
        ↔ ((Op.startSearch).run scenarioWidget).calls.any Effect.isSearchText = true)
    ∧ ((Op.startSearch).run scenarioWidget).calls = [.resetSearch 1]
    ∧ ¬ ((runningWidget.m_changed = true
          ∧ ((Op.startSearch).run runningWidget).self.m_changed = false)
        ↔ ((Op.startSearch).run runningWidget).calls.any Effect.isSearchText = true) := by
  decide

/-- C8 (amended): every operation that sends a full search request leaves the widget not
changed.  Across every operation other than `setSearchType` with a new value that is
`NextMatch` or `PreviousMatch`, the changed flag goes from true to false only if the
operation ran `startSearch` past its guard (id other than -1, valid colour), and then it
sent a full search request exactly when the text has at least `max m_minLength 1` code
units, and a `resetSearch` with the id otherwise. -/
theorem changed_cleared (w : SearchLineEdit) (op : Op) :
    ((op.run w).calls.any Effect.isSearchText = true → (op.run w).self.m_changed = false)
    ∧ ((∀ type, op = .setSearchType type →
          type = w.m_searchType ∨ (type ≠ .NextMatch ∧ type ≠ .PreviousMatch)) →
        w.m_changed = true → (op.run w).self.m_changed = false →
        (w.m_id ≠ -1 ∧ w.m_color.isValid = true)
        ∧ ((op.run w).calls.any Effect.isSearchText = true
            ↔ (w.text.length : Int) ≥ max w.m_minLength 1)
        ∧ (¬ (w.text.length : Int) ≥ max w.m_minLength 1 →
            Effect.resetSearch w.m_id ∈ (op.run w).calls)) := by
  refine ⟨fun h => ((op_facts w op).1 h).2.2, fun hop h1 h2 => ?_⟩
  rcases (op_facts w op).2.1 h1 h2 with ⟨type, hset, hne, hnav⟩ | h
  · rcases hop type hset with hsame | ⟨hn, hp⟩
    · exact absurd hsame hne
    · rcases hnav with hnav | hnav
      · exact absurd hnav hn
      · exact absurd hnav hp
  · exact h

/-- C8 at a concrete input: `startSearch` on the changed scenario widget with its empty
text clears the flag past the guard and sends a reset. -/
theorem changed_cleared_witness :
    (scenarioWidget.m_id ≠ -1 ∧ scenarioWidget.m_color.isValid = true)
    ∧ Effect.resetSearch 1 ∈ ((Op.startSearch).run scenarioWidget).calls :=
  ⟨((changed_cleared scenarioWidget .startSearch).2 (fun _ h => Op.noConfusion h)
      (by decide) (by decide)).1,
    ((changed_cleared scenarioWidget .startSearch).2 (fun _ h => Op.noConfusion h)
      (by decide) (by decide)).2.2 (by decide)⟩

/-! ## Requests while a search is running -/

/-- C9 (as stated, refuted): a widget with a navigation in flight (running, `NextMatch`,
not changed) sends a `continueSearch` on `findNext`, and the running all-document widget
sends a full search request on `startSearch`. -/
theorem no_request_while_running_counterexample :
    runningNextMatchWidget.m_searchRunning = true
    ∧ runningNextMatchWidget.findNext.calls = [.searchStarted, .continueSearch 1 .NextMatch]
    ∧ ¬ (runningNextMatchWidget.findNext.calls.any Effect.isRequest = false)
    ∧ runningWidget.m_searchRunning = true
    ∧ ¬ (runningWidget.startSearch.calls.any Effect.isRequest = false) := by
  decide

/-- C9 (amended): the running flag is not consulted before a request is sent.  For every
widget, `findNext`, `findPrev`, `startSearch`, the timeout and the submission send the
same calls and signals whatever the value of the running flag, so while a search is
running they send a search or continue request exactly where they would when idle. -/
theorem requests_ignore_running (w : SearchLineEdit) (running : Bool) :
    ({ w with m_searchRunning := running }).findNext.calls = w.findNext.calls
    ∧ ({ w with m_searchRunning := running }).findPrev.calls = w.findPrev.calls
    ∧ ({ w with m_searchRunning := running }).startSearch.calls = w.startSearch.calls
    ∧ ({ w with m_searchRunning := running }).timeout.calls = w.timeout.calls
    ∧ ({ w with m_searchRunning := running }).onSubmit.calls = w.onSubmit.calls := by
  have hstart : ∀ v : SearchLineEdit,
      ({ v with m_searchRunning := running }).startSearch.calls = v.startSearch.calls := by
    intro v
    unfold SearchLineEdit.startSearch
    dsimp only
    split_ifs <;> rfl
  have hnext : ∀ v : SearchLineEdit,
      ({ v with m_searchRunning := running }).findNext.calls = v.findNext.calls := by
    intro v
    unfold SearchLineEdit.findNext
    dsimp only
    split_ifs
    · rfl
    · rfl
    · exact hstart v
  refine ⟨hnext w, ?_, hstart w, ?_, ?_⟩
  · unfold SearchLineEdit.findPrev
    dsimp only
    split_ifs
    · rfl
    · rfl
    · exact hstart w
  · unfold SearchLineEdit.timeout
    dsimp only
    split_ifs
    · exact hstart { w with timerActive := false }
    · rfl
  · unfold SearchLineEdit.onSubmit SearchLineEdit.slotReturnPressed
    rw [prepareLineEditForSearch_eq, prepareLineEditForSearch_eq]
    exact hnext
      { w with
        timerActive := false
        palette :=
          if (w.text.length : Int) > 0 ∧ (w.text.length : Int) < w.m_minLength then
            { base := .negative, text := .negative }
          else { base := .application, text := .application } }

/-! ## What a request needs -/

theorem findNext_continue (w : SearchLineEdit) (hid : w.m_id ≠ -1)
    (ht : w.m_searchType = .NextMatch) (hc : w.m_changed = false) :
    w.findNext = ⟨{ w with m_searchRunning := true },
      [.searchStarted, .continueSearch w.m_id .NextMatch]⟩ := by
  unfold SearchLineEdit.findNext
  rw [if_neg (by simp [hid, ht]), if_pos hc, ht]

theorem runOps_findNext_succ (n : Nat) (w : SearchLineEdit) (hid : w.m_id ≠ -1)
    (ht : w.m_searchType = .NextMatch) (hc : w.m_changed = false) :
    runOps (List.replicate (n + 1) Op.findNext) w =
      ⟨{ w with m_searchRunning := true },
        (List.replicate (n + 1)
          [Effect.searchStarted, Effect.continueSearch w.m_id .NextMatch]).flatten⟩ := by
  induction n generalizing w with
  | zero =>
    simp [runOps, Op.run, findNext_continue w hid ht hc]
  | succ k ih =>
    rw [List.replicate_succ, runOps_cons]
    simp only [Op.run]
    rw [findNext_continue w hid ht hc]
    dsimp only
    rw [ih { w with m_searchRunning := true } hid ht hc]
    simp [List.replicate_succ]

theorem countP_flatten_replicate (p : Effect → Bool) (l : List Effect) (n : Nat) :
    ((List.replicate n l).flatten).countP p = n * l.countP p := by
  induction n with
  | zero => simp
  | succ k ih =>
    rw [List.replicate_succ, List.flatten_cons, List.countP_append, ih]
    ring

theorem any_flatten_replicate (p : Effect → Bool) (l : List Effect) (n : Nat)
    (h : l.any p = false) : ((List.replicate n l).flatten).any p = false := by
  induction n with
  | zero => simp
  | succ k ih =>
    rw [List.replicate_succ, List.flatten_cons, List.any_append, h, ih]
    rfl

/-- C11: with an id other than -1, search type `NextMatch` and the widget not changed,
`n` consecutive `findNext` calls (`n` at least 1) send `searchStarted` followed by
`continueSearch` with the id and `NextMatch`, `n` times over: exactly `n` continue
requests and `n` `searchStarted` signals, no search request and no `resetSearch`; the
widget is still not changed afterwards and its running flag is set. -/
theorem findNext_repeated (n : Nat) (w : SearchLineEdit) (hn : 1 ≤ n) (hid : w.m_id ≠ -1)
    (ht : w.m_searchType = .NextMatch) (hc : w.m_changed = false) :
    (runOps (List.replicate n Op.findNext) w).calls =
        (List.replicate n
          [Effect.searchStarted, Effect.continueSearch w.m_id .NextMatch]).flatten
    ∧ (runOps (List.replicate n Op.findNext) w).calls.countP
        (fun e => decide (e = Effect.continueSearch w.m_id .NextMatch)) = n
    ∧ (runOps (List.replicate n Op.findNext) w).calls.countP Effect.isContinueSearch = n
    ∧ (runOps (List.replicate n Op.findNext) w).calls.countP Effect.isSearchStarted = n
    ∧ (runOps (List.replicate n Op.findNext) w).calls.any Effect.isSearchText = false
    ∧ (runOps (List.replicate n Op.findNext) w).calls.any Effect.isResetSearch = false
    ∧ (runOps (List.replicate n Op.findNext) w).self.m_changed = false
    ∧ (runOps (List.replicate n Op.findNext) w).self.m_searchRunning = true := by
  obtain ⟨k, rfl⟩ : ∃ k, n = k + 1 := ⟨n - 1, by omega⟩
  rw [runOps_findNext_succ k w hid ht hc]
  dsimp only
  refine ⟨rfl, ?_, ?_, ?_, ?_, ?_, hc, rfl⟩
  · rw [countP_flatten_replicate]
    simp [List.countP_cons]
  · rw [countP_flatten_replicate]
    simp [List.countP_cons, Effect.isContinueSearch]
  · rw [countP_flatten_replicate]
    simp [List.countP_cons, Effect.isSearchStarted]
  · exact any_flatten_replicate _ _ _ (by simp [Effect.isSearchText])
  · exact any_flatten_replicate _ _ _ (by simp [Effect.isResetSearch])

/-- C11 at the scenario of the specification: id 1, `NextMatch`, not changed, `findNext`
twice: two `continueSearch 1 NextMatch`, two `searchStarted`, nothing else. -/
theorem findNext_repeated_witness :
    (runOps (List.replicate 2 Op.findNext) idleNextMatchWidget).calls =
        [.searchStarted, .continueSearch 1 .NextMatch,
          .searchStarted, .continueSearch 1 .NextMatch]
    ∧ (runOps (List.replicate 2 Op.findNext) idleNextMatchWidget).self.m_searchRunning
        = true :=
  ⟨(findNext_repeated 2 idleNextMatchWidget (by decide) (by decide) (by decide)
      (by decide)).1,
    (findNext_repeated 2 idleNextMatchWidget (by decide) (by decide) (by decide)
      (by decide)).2.2.2.2.2.2.2⟩

/-! ## Stopping: `stopSearch` -/

theorem stopSearch_eq (w : SearchLineEdit) (hid : w.m_id ≠ -1)
    (hrun : w.m_searchRunning = true) :
    w.stopSearch = ⟨{ w with timerActive := false, m_changed := true }, [.cancelSearch]⟩ := by
  unfold SearchLineEdit.stopSearch
  rw [if_neg (by simp [hid, hrun])]

theorem searchFinished_eq (w : SearchLineEdit) (endStatus : SearchStatus) :
    w.searchFinished w.m_id endStatus =
      ⟨{ w with
          palette :=
            if endStatus = .NoMatchFound then { base := .negative, text := .negative }
            else { base := .application, text := .application }
          m_searchRunning := false },
        [.searchStopped]⟩ := by
  unfold SearchLineEdit.searchFinished
  rw [if_neg (by simp)]
  dsimp only
  split_ifs <;> rfl

/-- C12 (as stated, refuted): the running all-document widget (id 1) is stopped, and its
running flag is still set when `stopSearch` returns. -/
theorem stopSearch_running_counterexample :
    runningWidget.m_id ≠ -1
    ∧ runningWidget.m_searchRunning = true
    ∧ runningWidget.stopSearch.calls = [.cancelSearch]
    ∧ ¬ (runningWidget.stopSearch.self.isSearchRunning = false) := by
  decide

/-- C12 (amended): with an id other than -1 and the running flag set, the running flag
is still set when `stopSearch` returns; it is cleared, and `searchStopped` is emitted,
when the completion with the id of the widget arrives afterwards, whatever its status. -/
theorem stopSearch_keeps_running (w : SearchLineEdit) (endStatus : SearchStatus)
    (hid : w.m_id ≠ -1) (hrun : w.m_searchRunning = true) :
    w.stopSearch.self.isSearchRunning = true
    ∧ (w.stopSearch.self.searchFinished w.m_id endStatus).self.isSearchRunning = false
    ∧ (w.stopSearch.self.searchFinished w.m_id endStatus).calls = [.searchStopped] := by
  rw [stopSearch_eq w hid hrun]
  have h := searchFinished_eq { w with timerActive := false, m_changed := true } endStatus
  dsimp only at h ⊢
  rw [h]
  exact ⟨hrun, rfl, rfl⟩

/-- C12 at a concrete input: the running widget is stopped and stays running until the
completion reporting the cancellation arrives. -/
theorem stopSearch_keeps_running_witness :
    runningWidget.stopSearch.self.isSearchRunning = true
    ∧ (runningWidget.stopSearch.self.searchFinished 1 .SearchCancelled).self.isSearchRunning
        = false :=
  ⟨(stopSearch_keeps_running runningWidget .SearchCancelled (by decide) (by decide)).1,
    (stopSearch_keeps_running runningWidget .SearchCancelled (by decide) (by decide)).2.1⟩

/-- C13: with an id other than -1 and the running flag set, `stopSearch` stops the input
delay timer, sends exactly one `cancelSearch` and nothing else (no other call, no
`searchStarted`, no `searchStopped`), flags the widget as changed, and leaves the text and
every option (minimum length, case sensitivity, search type, id, colour, viewport and
from-start flags) as they were. -/
theorem stopSearch_effect (w : SearchLineEdit) (hid : w.m_id ≠ -1)
    (hrun : w.m_searchRunning = true) :
    w.stopSearch = ⟨{ w with timerActive := false, m_changed := true }, [.cancelSearch]⟩
    ∧ w.stopSearch.self.timerActive = false
    ∧ w.stopSearch.calls.filter Effect.isBackendCall = [.cancelSearch]
    ∧ w.stopSearch.calls.filter (fun e => !e.isBackendCall) = []
    ∧ w.stopSearch.self.m_changed = true
    ∧ w.stopSearch.self.text = w.text
    ∧ w.stopSearch.self.m_minLength = w.m_minLength
    ∧ w.stopSearch.self.m_caseSensitivity = w.m_caseSensitivity
    ∧ w.stopSearch.self.m_searchType = w.m_searchType
    ∧ w.stopSearch.self.m_id = w.m_id
    ∧ w.stopSearch.self.m_color = w.m_color
    ∧ w.stopSearch.self.m_moveViewport = w.m_moveViewport
    ∧ w.stopSearch.self.m_fromStart = w.m_fromStart := by
  rw [stopSearch_eq w hid hrun]
  exact ⟨rfl, rfl, rfl, rfl, rfl, rfl, rfl, rfl, rfl, rfl, rfl, rfl, rfl⟩

/-- C13 at a concrete input: the running widget with a pending timer is stopped. -/
theorem stopSearch_effect_witness :
    ({ runningWidget with timerActive := true } : SearchLineEdit).stopSearch =
      ⟨{ runningWidget with timerActive := false, m_changed := true }, [.cancelSearch]⟩ :=
  (stopSearch_effect { runningWidget with timerActive := true } (by decide) (by decide)).1

/-! ## Completions with the id of the widget -/

/-- C14: a completion with the id of the widget, in whatever state the widget is (running
or not, stopped before or not) and with whatever status, clears the running flag, emits
exactly one `searchStopped` and nothing else, leaves the changed flag, the text, the timer
and every option as they were, and paints the widget with the negative (no match) colours
when the status is `NoMatchFound` and with the application (normal) colours for every
other status. -/
theorem searchFinished_own_id (w : SearchLineEdit) (endStatus : SearchStatus) :
    w.searchFinished w.m_id endStatus =
      ⟨{ w with
          palette :=
            if endStatus = .NoMatchFound then { base := .negative, text := .negative }
            else { base := .application, text := .application }
          m_searchRunning := false },
        [.searchStopped]⟩
    ∧ (w.searchFinished w.m_id endStatus).self.m_searchRunning = false
    ∧ (w.searchFinished w.m_id endStatus).calls = [.searchStopped]
    ∧ (w.searchFinished w.m_id endStatus).self.m_changed = w.m_changed
    ∧ ((w.searchFinished w.m_id endStatus).self.palette = ⟨.negative, .negative⟩
        ↔ endStatus = .NoMatchFound)
    ∧ ((w.searchFinished w.m_id endStatus).self.palette = ⟨.application, .application⟩
        ↔ endStatus ≠ .NoMatchFound) := by
  rw [searchFinished_eq]
  refine ⟨rfl, rfl, rfl, rfl, ?_, ?_⟩
  · by_cases h : endStatus = .NoMatchFound
    · simp [h]
    · simp [h]
  · by_cases h : endStatus = .NoMatchFound
    · simp [h]
    · simp [h]

/-! ## The busy indicator -/

theorem runEvents_append (a b : List IndicatorEvent) (v : SearchLineWidget) :
    runEvents (a ++ b) v = runEvents b (runEvents a v) := by
  induction a generalizing v with
  | nil => rfl
  | cons e es ih => exact ih (e.run v)

theorem event_arms (e : IndicatorEvent) (v : SearchLineWidget)
    (h : (e.run v).timerActive = true) : e = .searchStarted := by
  cases e with
  | searchStarted => rfl
  | searchStopped => exact absurd h (by simp [IndicatorEvent.run, SearchLineWidget.slotSearchStopped])
  | timeout =>
    by_cases ht : v.timerActive = true
    · rw [IndicatorEvent.run, SearchLineWidget.timeout, if_pos ht] at h
      exact absurd h (by decide)
    · rw [IndicatorEvent.run, SearchLineWidget.timeout, if_neg ht] at h
      exact absurd h ht

theorem event_activates (e : IndicatorEvent) (v : SearchLineWidget)
    (h0 : v.animRunning = false) (h : (e.run v).animRunning = true) :
    e = .timeout ∧ v.timerActive = true := by
  cases e with
  | searchStarted =>
    simp only [IndicatorEvent.run, SearchLineWidget.slotSearchStarted] at h
    rw [h0] at h
    exact absurd h (by decide)
  | searchStopped =>
    exact absurd h (by simp [IndicatorEvent.run, SearchLineWidget.slotSearchStopped])
  | timeout =>
    by_cases ht : v.timerActive = true
    · exact ⟨rfl, ht⟩
    · rw [IndicatorEvent.run, SearchLineWidget.timeout, if_neg ht, h0] at h
      exact absurd h (by decide)

theorem stoppedBeforeFiring_inactive (evs : List IndicatorEvent) (v : SearchLineWidget)
    (h0 : v.animRunning = false) (hq : stoppedBeforeFiring evs v = true) (k : Nat) :
    (runEvents (evs.take k) v).animRunning = false := by
  induction evs generalizing v k with
  | nil => simpa [runEvents] using h0
  | cons e es ih =>
    cases k with
    | zero => simpa [runEvents] using h0
    | succ j =>
      rw [stoppedBeforeFiring, Bool.and_eq_true] at hq
      have hstep : (e.run v).animRunning = false := by
        cases hr : (e.run v).animRunning
        · rfl
        · obtain ⟨he, ht⟩ := event_activates e v h0 hr
          rw [he, ht] at hq
          exact absurd hq.1 (by decide)
      exact ih (e.run v) hstep hq.2 j

/-- C15: the busy indicator as the pair (timer active, animation running) under the
events `searchStarted`, `searchStopped` and timeout.  After every `searchStopped` the
timer is not active and the animation is not running.  From a state with the animation
not running, along every sequence of events in which no timeout comes while the timer is
active, the animation is not running after any number of the events.  The animation goes
from not running to running only by a timeout that comes while the timer is active, and
the timer is active after a non-empty sequence of events only if the last event is a
`searchStarted`; from the constructed widget the timer is active only after a sequence
that ends in `searchStarted`. -/
theorem busy_indicator (v : SearchLineWidget) (evs : List IndicatorEvent)
    (e : IndicatorEvent) :
    (v.slotSearchStopped.timerActive = false ∧ v.slotSearchStopped.animRunning = false)
    ∧ (v.animRunning = false → stoppedBeforeFiring evs v = true →
        ∀ k, (runEvents (evs.take k) v).animRunning = false)
    ∧ ((runEvents evs v).animRunning = false →
        (runEvents (evs ++ [e]) v).animRunning = true →
        e = .timeout ∧ (runEvents evs v).timerActive = true)
    ∧ ((runEvents (evs ++ [e]) v).timerActive = true → e = .searchStarted)
    ∧ ((runEvents evs SearchLineWidget.new).timerActive = true →
        ∃ before, evs = before ++ [.searchStarted]) := by
  refine ⟨⟨rfl, rfl⟩, fun h0 hq k => stoppedBeforeFiring_inactive evs v h0 hq k, ?_, ?_, ?_⟩
  · intro h0 h1
    rw [runEvents_append] at h1
    exact event_activates e _ h0 h1
  · intro h
    rw [runEvents_append] at h
    exact event_arms e _ h
  · intro h
    rcases List.eq_nil_or_concat evs with hnil | ⟨before, last, hcat⟩
    · rw [hnil] at h
      exact absurd h (by decide)
    · rw [hcat, List.concat_eq_append, runEvents_append] at h
      exact ⟨before, by rw [hcat, List.concat_eq_append, event_arms last _ h]⟩

/-- C15 at the scenario of the specification: from the constructed widget,
`searchStarted` and then `searchStopped` before the timer fires (a later timeout finds the
timer stopped): the animation is not running after any number of these events. -/
theorem busy_indicator_witness :
    stoppedBeforeFiring [.searchStarted, .searchStopped, .timeout] SearchLineWidget.new = true
    ∧ ∀ k, (runEvents (([.searchStarted, .searchStopped, .timeout] :
        List IndicatorEvent).take k) SearchLineWidget.new).animRunning = false :=
  ⟨by decide,
    (busy_indicator SearchLineWidget.new [.searchStarted, .searchStopped, .timeout]
      .timeout).2.1 (by decide) (by decide)⟩

/-! ## Submission: `returnPressed` -/

theorem findNext_timer_palette (w : SearchLineEdit) (t : Bool) (pal : QPalette) :
    ({ w with timerActive := t, palette := pal } : SearchLineEdit).findNext =
      ⟨{ w.findNext.self with timerActive := t, palette := pal }, w.findNext.calls⟩ := by
  unfold SearchLineEdit.findNext SearchLineEdit.startSearch
  dsimp only
  split_ifs <;> rfl

/-- C16: a submission is the same as cancelling the input delay timer, recomputing the
validity styling and then `findNext`: the timer is not active afterwards, the calls and
signals are those of `findNext` on the widget as it was, and so are all fields other than
the timer and the palette.  When the search type is not `NextMatch` a submission sends
nothing and leaves the changed and running flags as they were, while the timer, and with
it a pending delayed search, is stopped. -/
theorem onSubmit_is_findNext (w : SearchLineEdit) :
    w.onSubmit = w.onSubmitSpec
    ∧ w.onSubmit.self.timerActive = false
    ∧ w.onSubmit.self.palette = w.prepareLineEditForSearch.palette
    ∧ w.onSubmit.calls = w.findNext.calls
    ∧ w.onSubmit.self.m_changed = w.findNext.self.m_changed
    ∧ w.onSubmit.self.m_searchRunning = w.findNext.self.m_searchRunning
    ∧ (w.m_searchType ≠ .NextMatch →
        w.onSubmit.calls = []
        ∧ w.onSubmit.self.m_changed = w.m_changed
        ∧ w.onSubmit.self.m_searchRunning = w.m_searchRunning
        ∧ w.onSubmit.self.timerActive = false) := by
  have h : w.onSubmit = w.onSubmitSpec := by
    unfold SearchLineEdit.onSubmit SearchLineEdit.slotReturnPressed
      SearchLineEdit.onSubmitSpec
    rw [prepareLineEditForSearch_eq, prepareLineEditForSearch_eq]
    exact findNext_timer_palette w false _
  refine ⟨h, ?_, ?_, ?_, ?_, ?_, fun hne => ?_⟩
  · rw [h]; rfl
  · rw [h]; rfl
  · rw [h]; rfl
  · rw [h]; rfl
  · rw [h]; rfl
  · have hn : w.findNext = ⟨w, []⟩ := by
      unfold SearchLineEdit.findNext
      rw [if_pos (Or.inr hne)]
    rw [h]
    unfold SearchLineEdit.onSubmitSpec
    rw [hn]
    exact ⟨rfl, rfl, rfl, rfl⟩

/-- C16 at a concrete input: the scenario widget searches the whole document and has a
delayed search pending; a submission sends nothing and stops the timer. -/
theorem onSubmit_is_findNext_witness :
    ({ scenarioWidget with timerActive := true } : SearchLineEdit).onSubmit.calls = []
    ∧ ({ scenarioWidget with timerActive := true } : SearchLineEdit).onSubmit.self.timerActive
        = false :=
  ⟨((onSubmit_is_findNext { scenarioWidget with timerActive := true }).2.2.2.2.2.2
      (by decide)).1,
    (onSubmit_is_findNext { scenarioWidget with timerActive := true }).2.1⟩

/-! ## Failed guards -/

/-- C17: a failed guard makes the call do nothing.  `startSearch` with the id -1 or
without a valid colour, `findNext` and `findPrev` with the id -1 or a search type other
than their direction, and `stopSearch` with the id -1 or the running flag not set each
return the widget as it was (changed flag, running flag and timer included) and send no
call and no signal. -/
theorem failed_guards (w : SearchLineEdit) :
    ((w.m_id = -1 ∨ w.m_color.isValid = false) → w.startSearch = ⟨w, []⟩)
    ∧ ((w.m_id = -1 ∨ w.m_searchType ≠ .NextMatch) → w.findNext = ⟨w, []⟩)
    ∧ ((w.m_id = -1 ∨ w.m_searchType ≠ .PreviousMatch) → w.findPrev = ⟨w, []⟩)
    ∧ ((w.m_id = -1 ∨ w.m_searchRunning = false) → w.stopSearch = ⟨w, []⟩) := by
  refine ⟨fun h => startSearch_guard w h, fun h => ?_, fun h => ?_, fun h => ?_⟩
  · unfold SearchLineEdit.findNext
    rw [if_pos h]
  · unfold SearchLineEdit.findPrev
    rw [if_pos h]
  · unfold SearchLineEdit.stopSearch
    rw [if_pos h]

/-- C17 at concrete inputs: the widget without a colour does nothing on `startSearch`,
and the idle widget does nothing on `stopSearch`. -/
theorem failed_guards_witness :
    noColourNextMatchWidget.startSearch = ⟨noColourNextMatchWidget, []⟩
    ∧ idleNextMatchWidget.stopSearch = ⟨idleNextMatchWidget, []⟩ :=
  ⟨(failed_guards noColourNextMatchWidget).1 (by decide),
    (failed_guards idleNextMatchWidget).2.2.2 (by decide)⟩

/-! ## Validity styling against the search decision -/

/-- C18: with an id other than -1 and a valid colour, for every minimum length (zero and
negative values included) and every non-empty text, the validity styling paints the
widget with the negative (invalid) colours exactly when the text has fewer than
`max m_minLength 1` code units, which is exactly when `startSearch` sends a `resetSearch`
and no search request; an empty text is never painted with the negative colours. -/
theorem validity_matches_decision (w : SearchLineEdit) (hid : w.m_id ≠ -1)
    (hcol : w.m_color.isValid = true) :
    (w.text ≠ [] →
        (w.prepareLineEditForSearch.palette = ⟨.negative, .negative⟩
          ↔ (w.text.length : Int) < max w.m_minLength 1)
        ∧ (w.prepareLineEditForSearch.palette = ⟨.negative, .negative⟩
          ↔ (w.startSearch.calls.any Effect.isSearchText = false
              ∧ Effect.resetSearch w.m_id ∈ w.startSearch.calls)))
    ∧ (w.text = [] → w.prepareLineEditForSearch.palette = ⟨.application, .application⟩) := by
  have hstart : (w.startSearch.calls.any Effect.isSearchText = false
      ∧ Effect.resetSearch w.m_id ∈ w.startSearch.calls)
      ↔ (w.text.length : Int) < max w.m_minLength 1 := by
    rw [startSearch_eq w hid hcol]
    by_cases hlen : (w.text.length : Int) ≥ max w.m_minLength 1
    · rw [if_pos hlen]
      have hno : ¬ (w.text.length : Int) < max w.m_minLength 1 := not_lt.mpr hlen
      by_cases hnav : w.m_changed = true ∧
          (w.m_searchType = .NextMatch ∨ w.m_searchType = .PreviousMatch)
      · simp [hnav, hno, Effect.isSearchText]
      · simp [hnav, hno, Effect.isSearchText]
    · rw [if_neg hlen]
      have hyes : (w.text.length : Int) < max w.m_minLength 1 := not_le.mp hlen
      by_cases hnav : w.m_changed = true ∧
          (w.m_searchType = .NextMatch ∨ w.m_searchType = .PreviousMatch)
      · simp [hnav, hyes, Effect.isSearchText]
      · simp [hnav, hyes, Effect.isSearchText]
  have hpal : w.text ≠ [] →
      (w.prepareLineEditForSearch.palette = ⟨.negative, .negative⟩
        ↔ (w.text.length : Int) < max w.m_minLength 1) := by
    intro hne
    have hpos : (0 : Int) < (w.text.length : Int) := by
      have := List.length_pos.mpr hne
      omega
    rw [prepareLineEditForSearch_eq]
    dsimp only
    by_cases hlt : (w.text.length : Int) < w.m_minLength
    · rw [if_pos ⟨hpos, hlt⟩]
      simp [lt_max_iff, hlt]
    · rw [if_neg (fun h => hlt h.2)]
      have : ¬ (w.text.length : Int) < max w.m_minLength 1 := by
        rw [lt_max_iff]
        rintro (h | h)
        · exact hlt h
        · omega
      simp [this]
  refine ⟨fun hne => ⟨hpal hne, (hpal hne).trans hstart.symm⟩, fun he => ?_⟩
  rw [prepareLineEditForSearch_eq, he]
  simp

/-- C18 at concrete inputs: with minimum length 3 the text "ab" is painted as invalid,
and with the negative minimum length -5 the text "a" is not. -/
theorem validity_matches_decision_witness :
    ({ scenarioWidget with text := [97, 98] } : SearchLineEdit).prepareLineEditForSearch.palette
        = ⟨.negative, .negative⟩
    ∧ ¬ (({ scenarioWidget with text := [97], m_minLength := -5 } :
          SearchLineEdit).prepareLineEditForSearch.palette = ⟨.negative, .negative⟩) :=
  ⟨((validity_matches_decision { scenarioWidget with text := [97, 98] } (by decide)
      (by decide)).1 (by decide)).1.mpr (by decide),
    fun h => absurd
      (((validity_matches_decision { scenarioWidget with text := [97], m_minLength := -5 }
        (by decide) (by decide)).1 (by decide)).1.mp h) (by decide)⟩

/-! ## The viewport and from-start flags -/

/-- C19: `setSearchMoveViewport` changes the viewport flag only and `setSearchFromStart`
changes the from-start flag only: the changed flag, the running flag, the timer and every
other field stay as they were and nothing is sent.  With an id other than -1, a valid
colour and a text of at least `max m_minLength 1` code units, the search request of the
`startSearch` that follows carries the value that was set. -/
theorem flag_setters (w : SearchLineEdit) (flag : Bool) :
    w.setSearchMoveViewport flag = ⟨{ w with m_moveViewport := flag }, []⟩
    ∧ w.setSearchFromStart flag = ⟨{ w with m_fromStart := flag }, []⟩
    ∧ (w.setSearchMoveViewport flag).self.m_changed = w.m_changed
    ∧ (w.setSearchMoveViewport flag).self.m_searchRunning = w.m_searchRunning
    ∧ (w.setSearchMoveViewport flag).self.timerActive = w.timerActive
    ∧ (w.setSearchFromStart flag).self.m_changed = w.m_changed
    ∧ (w.setSearchFromStart flag).self.m_searchRunning = w.m_searchRunning
    ∧ (w.setSearchFromStart flag).self.timerActive = w.timerActive
    ∧ (w.m_id ≠ -1 → w.m_color.isValid = true → (w.text.length : Int) ≥ max w.m_minLength 1 →
        (w.setSearchMoveViewport flag).self.startSearch.calls.filter Effect.isSearchText =
          [.searchText w.m_id w.text w.m_fromStart w.m_caseSensitivity w.m_searchType
            flag w.m_color]
        ∧ (w.setSearchFromStart flag).self.startSearch.calls.filter Effect.isSearchText =
          [.searchText w.m_id w.text flag w.m_caseSensitivity w.m_searchType
            w.m_moveViewport w.m_color]) := by
  refine ⟨rfl, rfl, rfl, rfl, rfl, rfl, rfl, rfl, fun hid hcol hlen => ?_⟩
  have h1 := startSearch_eq { w with m_moveViewport := flag } hid hcol
  have h2 := startSearch_eq { w with m_fromStart := flag } hid hcol
  dsimp only at h1 h2
  rw [if_pos hlen] at h1 h2
  unfold SearchLineEdit.setSearchMoveViewport SearchLineEdit.setSearchFromStart
  dsimp only
  rw [h1, h2]
  by_cases hnav : w.m_changed = true ∧
      (w.m_searchType = .NextMatch ∨ w.m_searchType = .PreviousMatch)
  · simp [hnav, List.filter, Effect.isSearchText]
  · simp [hnav, List.filter, Effect.isSearchText]

/-- C19 at a concrete input: the viewport flag of the idle widget holding "abc" is set;
the next search request carries it. -/
theorem flag_setters_witness :
    (runningWidget.setSearchMoveViewport true).self.startSearch.calls.filter
        Effect.isSearchText =
      [.searchText 1 [97, 98, 99] true .CaseInsensitive .AllDocument true yellow] :=
  ((flag_setters runningWidget true).2.2.2.2.2.2.2.2 (by decide) (by decide)
    (by decide)).1

/-! ## Started signals and requests come in pairs -/

theorem pairedFrom_append (a c : List Effect) (expecting : Bool)
    (h : pairedFrom expecting a = true) :
    pairedFrom expecting (a ++ c) = pairedFrom false c := by
  induction a generalizing expecting with
  | nil =>
    cases expecting
    · rfl
    · exact absurd h (by simp [pairedFrom])
  | cons e rest ih =>
    cases expecting
    · rw [pairedFrom] at h
      rw [List.cons_append, pairedFrom]
      by_cases hs : e.isSearchStarted = true
      · rw [if_pos hs] at h ⊢
        exact ih true h
      · rw [if_neg hs] at h ⊢
        rw [Bool.and_eq_true] at h
        rw [h.1, ih false h.2]
        rfl
    · rw [pairedFrom, Bool.and_eq_true] at h
      rw [List.cons_append, pairedFrom, h.1, ih false h.2]
      rfl

theorem pairedFrom_counts (l : List Effect) (expecting : Bool)
    (h : pairedFrom expecting l = true) :
    l.countP Effect.isRequest =
      l.countP Effect.isSearchStarted + (if expecting = true then 1 else 0) := by
  induction l generalizing expecting with
  | nil =>
    cases expecting
    · rfl
    · exact absurd h (by simp [pairedFrom])
  | cons e rest ih =>
    cases expecting
    · rw [pairedFrom] at h
      by_cases hs : e.isSearchStarted = true
      · rw [if_pos hs] at h
        have hr : e.isRequest = false := by
          cases e <;> first | rfl | exact absurd hs (by simp [Effect.isSearchStarted])
        have := ih true h
        simp only [List.countP_cons, hs, hr, if_true] at this ⊢
        simp
        omega
      · rw [if_neg hs, Bool.and_eq_true] at h
        have hr : e.isRequest = false := by simpa using h.1
        have hs2 : e.isSearchStarted = false := by simpa using hs
        have := ih false h.2
        simp only [List.countP_cons, hs2, hr] at this ⊢
        simp at this ⊢
        omega
    · rw [pairedFrom, Bool.and_eq_true] at h
      have hs : e.isSearchStarted = false := by
        cases e <;> first | rfl | exact absurd h.1 (by simp [Effect.isRequest,
          Effect.isSearchText, Effect.isContinueSearch])
      have := ih false h.2
      simp only [List.countP_cons, hs, h.1] at this ⊢
      simp at this ⊢
      omega

theorem countP_isRequest (l : List Effect) :
    l.countP Effect.isRequest =
      l.countP Effect.isSearchText + l.countP Effect.isContinueSearch := by
  induction l with
  | nil => rfl
  | cons e rest ih =>
    cases e <;>
      simp [List.countP_cons, Effect.isRequest, Effect.isSearchText,
        Effect.isContinueSearch] at ih ⊢ <;> omega

/-- What every run of `startSearch` satisfies as to pairing: its calls are paired, a
`searchStarted` comes with the running flag set, and the running flag is set only with a
request. -/
theorem startSearch_pairing (w : SearchLineEdit) :
    pairedFrom false w.startSearch.calls = true
    ∧ (w.startSearch.calls.any Effect.isSearchStarted = true →
        w.startSearch.self.m_searchRunning = true)
    ∧ (w.m_searchRunning = false → w.startSearch.self.m_searchRunning = true →
        w.startSearch.calls.any Effect.isRequest = true) := by
  by_cases hg : w.m_id = -1 ∨ w.m_color.isValid = false
  · rw [startSearch_guard w hg]
    refine ⟨rfl, by simp, fun h1 h2 => ?_⟩
    rw [h1] at h2
    exact absurd h2 (by decide)
  · have hid : w.m_id ≠ -1 := fun h => hg (Or.inl h)
    have hcol : w.m_color.isValid = true := by
      cases hv : w.m_color.isValid
      · exact absurd (Or.inr hv) hg
      · rfl
    rw [startSearch_eq w hid hcol]
    by_cases hlen : (w.text.length : Int) ≥ max w.m_minLength 1
    · rw [if_pos hlen]
      by_cases hnav : w.m_changed = true ∧
          (w.m_searchType = .NextMatch ∨ w.m_searchType = .PreviousMatch)
      · rw [if_pos hnav]
        exact ⟨rfl, fun _ => rfl, fun _ _ => rfl⟩
      · rw [if_neg hnav]
        exact ⟨rfl, fun _ => rfl, fun _ _ => rfl⟩
    · rw [if_neg hlen]
      by_cases hnav : w.m_changed = true ∧
          (w.m_searchType = .NextMatch ∨ w.m_searchType = .PreviousMatch)
      · rw [if_pos hnav]
        refine ⟨rfl, fun h => absurd h (by simp [Effect.isSearchStarted]), fun h1 h2 => ?_⟩
        rw [h1] at h2
        exact absurd h2 (by decide)
      · rw [if_neg hnav]
        refine ⟨rfl, fun h => absurd h (by simp [Effect.isSearchStarted]), fun h1 h2 => ?_⟩
        rw [h1] at h2
        exact absurd h2 (by decide)

/-- The same for every operation of the shape of `findNext` and `findPrev`
(direction `d`). -/
theorem navigation_pairing (w : SearchLineEdit) (d : SearchType) (r : Result)
    (hr : r = if w.m_id = -1 ∨ w.m_searchType ≠ d then ⟨w, []⟩
      else if w.m_changed = false then
        ⟨{ w with m_searchRunning := true },
          [.searchStarted, .continueSearch w.m_id w.m_searchType]⟩
      else w.startSearch) :
    pairedFrom false r.calls = true
    ∧ (r.calls.any Effect.isSearchStarted = true → r.self.m_searchRunning = true)
    ∧ (w.m_searchRunning = false → r.self.m_searchRunning = true →
        r.calls.any Effect.isRequest = true) := by
  subst hr
  by_cases h1 : w.m_id = -1 ∨ w.m_searchType ≠ d
  · rw [if_pos h1]
    refine ⟨rfl, by simp, fun h2 h3 => ?_⟩
    rw [h2] at h3
    exact absurd h3 (by decide)
  · rw [if_neg h1]
    by_cases h2 : w.m_changed = false
    · rw [if_pos h2]
      exact ⟨rfl, fun _ => rfl, fun _ _ => rfl⟩
    · rw [if_neg h2]
      exact startSearch_pairing w

/-- The same for every operation. -/
theorem op_pairing (w : SearchLineEdit) (op : Op) :
    pairedFrom false (op.run w).calls = true
    ∧ ((op.run w).calls.any Effect.isSearchStarted = true →
        (op.run w).self.m_searchRunning = true)
    ∧ (w.m_searchRunning = false → (op.run w).self.m_searchRunning = true →
        (op.run w).calls.any Effect.isRequest = true) := by
  have quiet : ∀ r : Result, r.calls = [] → r.self.m_searchRunning = w.m_searchRunning →
      pairedFrom false r.calls = true
      ∧ (r.calls.any Effect.isSearchStarted = true → r.self.m_searchRunning = true)
      ∧ (w.m_searchRunning = false → r.self.m_searchRunning = true →
          r.calls.any Effect.isRequest = true) := by
    intro r hc hrun
    rw [hc, hrun]
    refine ⟨rfl, by simp, fun h2 h3 => ?_⟩
    rw [h2] at h3
    exact absurd h3 (by decide)
  cases op with
  | setSearchCaseSensitivity cs => exact quiet _ rfl rfl
  | setSearchMinimumLength n => exact quiet _ rfl rfl
  | setSearchType t =>
    simp only [Op.run]
    unfold SearchLineEdit.setSearchType
    split_ifs
    · exact quiet _ rfl rfl
    · exact quiet _ rfl rfl
  | setSearchId id => exact quiet _ rfl rfl
  | setSearchColor c => exact quiet _ rfl rfl
  | setSearchMoveViewport b => exact quiet _ rfl rfl
  | setSearchFromStart b => exact quiet _ rfl rfl
  | clearText =>
    simp only [Op.run]
    unfold SearchLineEdit.clearText
    split_ifs
    · exact quiet _ rfl rfl
    · exact quiet _ (onTextChanged_calls w []) (by rw [onTextChanged_self])
  | restartSearch => exact quiet _ rfl rfl
  | stopSearch =>
    simp only [Op.run]
    unfold SearchLineEdit.stopSearch
    split_ifs
    · exact quiet _ rfl rfl
    · refine ⟨rfl, fun h => absurd h (by simp [Effect.isSearchStarted]), fun h2 h3 => ?_⟩
      rw [h2] at h3
      exact absurd h3 (by decide)
  | findNext => exact navigation_pairing w .NextMatch w.findNext rfl
  | findPrev => exact navigation_pairing w .PreviousMatch w.findPrev rfl
  | textChanged t =>
    exact quiet _ (onTextChanged_calls w t) (by simp only [Op.run]; rw [onTextChanged_self])
  | returnPressed =>
    simp only [Op.run]
    unfold SearchLineEdit.onSubmit SearchLineEdit.slotReturnPressed
    rw [prepareLineEditForSearch_eq]
    exact navigation_pairing
      { w with
        timerActive := false
        palette :=
          if (w.text.length : Int) > 0 ∧ (w.text.length : Int) < w.m_minLength then
            { base := .negative, text := .negative }
          else { base := .application, text := .application } } .NextMatch _ rfl
  | startSearch => exact startSearch_pairing w
  | timeout =>
    simp only [Op.run]
    unfold SearchLineEdit.timeout
    split_ifs
    · exact startSearch_pairing { w with timerActive := false }
    · exact quiet _ rfl rfl
  | searchFinished id st =>
    simp only [Op.run]
    unfold SearchLineEdit.searchFinished
    by_cases hid : id ≠ w.m_id
    · rw [if_pos hid]
      exact quiet _ rfl rfl
    · rw [if_neg hid]
      refine ⟨rfl, fun h => absurd h (by simp [Effect.isSearchStarted]), fun _ h3 => ?_⟩
      exact absurd h3 (by simp)

theorem runOps_paired (ops : List Op) (w : SearchLineEdit) :
    pairedFrom false (runOps ops w).calls = true := by
  induction ops generalizing w with
  | nil => rfl
  | cons op rest ih =>
    rw [runOps_cons]
    dsimp only
    rw [pairedFrom_append _ _ _ (op_pairing w op).1]
    exact ih _

/-- C20: over every sequence of operations, from the constructed widget as from any
other, every `searchStarted` is directly followed by one search or continue request and
no such request comes without a `searchStarted` directly before it, so the number of
`searchStarted` signals equals the number of search requests plus the number of continue
requests.  An operation that emits `searchStarted` returns with the running flag set, and
the running flag goes from not set to set only in an operation that sends a search or
continue request. -/
theorem started_paired_with_requests (pal : QPalette) (w : SearchLineEdit) (ops : List Op)
    (op : Op) :
    pairedFrom false (runOps ops (SearchLineEdit.new pal)).calls = true
    ∧ (runOps ops (SearchLineEdit.new pal)).calls.countP Effect.isSearchStarted =
        (runOps ops (SearchLineEdit.new pal)).calls.countP Effect.isSearchText
        + (runOps ops (SearchLineEdit.new pal)).calls.countP Effect.isContinueSearch
    ∧ pairedFrom false (runOps ops w).calls = true
    ∧ (runOps ops w).calls.countP Effect.isSearchStarted =
        (runOps ops w).calls.countP Effect.isSearchText
        + (runOps ops w).calls.countP Effect.isContinueSearch
    ∧ ((op.run w).calls.any Effect.isSearchStarted = true →
        (op.run w).self.m_searchRunning = true)
    ∧ (w.m_searchRunning = false → (op.run w).self.m_searchRunning = true →
        (op.run w).calls.any Effect.isRequest = true) := by
  have hcount : ∀ v : SearchLineEdit,
      (runOps ops v).calls.countP Effect.isSearchStarted =
        (runOps ops v).calls.countP Effect.isSearchText
        + (runOps ops v).calls.countP Effect.isContinueSearch := by
    intro v
    have h := pairedFrom_counts _ false (runOps_paired ops v)
    rw [countP_isRequest] at h
    simpa using h.symm
  exact ⟨runOps_paired ops _, hcount _, runOps_paired ops w, hcount w,
    (op_pairing w op).2.1, (op_pairing w op).2.2⟩

/-- C20 on a concrete run from the constructed widget: id, colour and `NextMatch` are set,
"abc" is typed, the timer fires, the search completes and `findNext` is called; the two
requests sent each directly follow their `searchStarted`. -/
theorem started_paired_with_requests_witness :
    (runOps [.setSearchId 1, .setSearchColor yellow, .setSearchType .NextMatch,
        .textChanged [97, 98, 99], .timeout, .searchFinished 1 .MatchFound, .findNext]
        (SearchLineEdit.new appPalette)).calls =
      [.resetSearch 1, .searchStarted,
        .searchText 1 [97, 98, 99] true .CaseInsensitive .NextMatch false yellow,
        .searchStopped, .searchStarted, .continueSearch 1 .NextMatch]
    ∧ pairedFrom false (runOps [.setSearchId 1, .setSearchColor yellow,
        .setSearchType .NextMatch, .textChanged [97, 98, 99], .timeout,
        .searchFinished 1 .MatchFound, .findNext] (SearchLineEdit.new appPalette)).calls
        = true :=
  ⟨by decide,
    (started_paired_with_requests appPalette (SearchLineEdit.new appPalette)
      [.setSearchId 1, .setSearchColor yellow, .setSearchType .NextMatch,
        .textChanged [97, 98, 99], .timeout, .searchFinished 1 .MatchFound, .findNext]
      .findNext).1⟩

end Okular
